import Mathlib

/-!
Verification of the per-request authenticated client resolution and HTTP
facade layer of mcp-grafana, a shallow embedding of
src/src/mcp_grafana/client.py.

Modelling conventions:
- HTTP headers are association lists from header name to value; assigning a
  header replaces any previous binding for that name, mirroring mutation of
  the httpx request header dictionary.
- Query parameters are association lists from parameter name to a parameter
  value, where a value is a string, an integer, a list of strings (a repeated
  parameter), or the Python None.
- Response bodies are modelled at the text level: the bytes returned by
  r.read() and their text decoding are the same String.
- Facade methods that perform a single authenticated GET are modelled as
  returning the request they issue, or the local error that prevented any
  request from being issued.
-/

/-- Headers of an outbound HTTP request: an association list from header
name to header value, first binding wins on lookup. -/
abbrev Headers := List (String × String)

/-- Value of a header, or none when the header is absent. -/
def lookupH (h : Headers) (k : String) : Option String :=
  (h.find? (fun p => p.1 = k)).map (fun p => p.2)

/-- Assignment to the header dictionary: the new binding replaces any
previous binding for the same name. -/
def setHeader (h : Headers) (k v : String) : Headers :=
  (k, v) :: h.filter (fun p => ¬ p.1 = k)

/-- Credential strategies of client.py: BearerAuth, AccessTokenAuth and
AccessTokenOnBehalfOfAuth, as a tagged union holding each class's fields. -/
inductive Auth where
  | bearer (api_key : String)
  | accessToken (access_token : String)
  | accessTokenOnBehalfOf (access_token : String) (id_token : String)
deriving DecidableEq

/-- Embedding of the auth_flow method of each httpx.Auth subclass in
client.py: the headers it assigns on the outbound request, applied to the
request's headers before the request is yielded. -/
def Auth.auth_flow : Auth → Headers → Headers
  | .bearer k, h => setHeader h "Authorization" ("Bearer " ++ k)
  | .accessToken t, h => setHeader h "X-Access-Token" t
  | .accessTokenOnBehalfOf a i, h =>
      setHeader (setHeader h "X-Access-Token" a) "X-Grafana-Id" i

/-- Modelled from the spec: GrafanaSettings lives in the settings module,
which is not under src; section 2 of the spec says settings resolution
supplies a URL plus one of a service-account token (api key), an access
token, or an access token with an identity token, each possibly absent. -/
structure GrafanaSettings where
  url : String
  api_key : Option String
  access_token : Option String
  id_token : Option String
deriving DecidableEq

/-- Embedding of the GrafanaClient state relevant to credential selection:
the base URL, the selected auth strategy (none when no credential strategy
was constructed), and the fixed timeout passed to httpx.AsyncClient. -/
structure GrafanaClient where
  base_url : String
  auth : Option Auth
  timeout : Rat
deriving DecidableEq

/-- Embedding of GrafanaClient.__init__ (client.py lines 70 to 89): the
elif chain selecting the auth strategy, then construction of the
httpx.AsyncClient with base_url, auth and a 30 second timeout. -/
def GrafanaClient.mk_client (url : String)
    (api_key access_token id_token : Option String) : GrafanaClient :=
  let auth : Option Auth :=
    match api_key with
    | some k => some (.bearer k)
    | none =>
      match access_token, id_token with
      | some a, some i => some (.accessTokenOnBehalfOf a i)
      | some a, none => some (.accessToken a)
      | none, _ => none
  { base_url := url, auth := auth, timeout := 30 }

/-- Embedding of GrafanaClient.from_settings (client.py lines 91 to 105).
Each branch forwards exactly the keyword arguments the source passes;
omitted keyword arguments are the Python default None. -/
def GrafanaClient.from_settings (s : GrafanaSettings) : GrafanaClient :=
  if s.access_token.isSome && s.id_token.isSome then
    GrafanaClient.mk_client s.url none s.access_token s.id_token
  else if s.access_token.isNone then
    GrafanaClient.mk_client s.url none s.access_token none
  else
    GrafanaClient.mk_client s.url s.api_key none none

/-- Embedding of GrafanaClient.for_current_request (client.py lines 107 to
119): builds a fresh client from the settings currently held by the
grafana_settings context variable, passed here explicitly. -/
def GrafanaClient.for_current_request (s : GrafanaSettings) : GrafanaClient :=
  GrafanaClient.from_settings s

/-- Upstream HTTP response as observed by the client: status code and the
body, modelled at the text level. -/
structure HttpResponse where
  status : Nat
  body : String
deriving DecidableEq

/-- Embedding of httpx Response.is_success: status in the 2xx range. -/
def HttpResponse.is_success (r : HttpResponse) : Bool :=
  200 <= r.status && r.status < 300

/-- Parameter value in an outgoing query-string dictionary: a string, an
integer, a list of strings (a repeated parameter), or the Python None. -/
inductive PVal where
  | str (s : String)
  | intVal (n : Int)
  | strList (l : List String)
  | null
deriving DecidableEq

/-- Query parameters: an association list from parameter name to value. -/
abbrev Params := List (String × PVal)

/-- Value bound to a parameter name, or none when the key is absent. -/
def lookupP (ps : Params) (k : String) : Option PVal :=
  (ps.find? (fun p => p.1 = k)).map (fun p => p.2)

/-- Deletion of a key from a parameter dictionary. -/
def eraseP (ps : Params) (k : String) : Params :=
  ps.filter (fun p => ¬ p.1 = k)

/-- Embedding of GrafanaClient.get (client.py lines 121 to 125) and
GrafanaClient.post (lines 127 to 131) at the response-handling step: given
the upstream response, a non-2xx status raises GrafanaError carrying the
body decoded as text, and a 2xx status returns the body bytes. -/
def GrafanaClient.get (c : GrafanaClient) (path : String) (params : Params)
    (r : HttpResponse) : Except String String :=
  let _ := c
  let _ := path
  let _ := params
  if r.is_success then Except.ok r.body else Except.error r.body

/-- Embedding of GrafanaClient.post response handling, identical to get. -/
def GrafanaClient.post {J : Type} (c : GrafanaClient) (path : String)
    (json : J) (r : HttpResponse) : Except String String :=
  let _ := c
  let _ := path
  let _ := json
  if r.is_success then Except.ok r.body else Except.error r.body

/-- Outcome of a facade method that performs one authenticated GET: the
request it issues, or the local failure that prevented any network call
(a ValueError for a failed argument precondition, a KeyError for a missing
dictionary key). -/
inductive FacadeCall where
  | getReq (path : String) (params : Params)
  | invalidArgument (msg : String)
  | keyError (key : String)
deriving DecidableEq

/-- Embedding of GrafanaClient.get_datasource (client.py lines 136 to 144):
uid checked first, then name, else ValueError with no network call. -/
def GrafanaClient.get_datasource (uid name : Option String) : FacadeCall :=
  match uid with
  | some u => .getReq ("/api/datasources/uid/" ++ u) []
  | none =>
    match name with
    | some n => .getReq ("/api/datasources/name/" ++ n) []
    | none => .invalidArgument "uid or name must be provided"

/-- Modelled from the spec: SearchDashboardsArguments lives in the
grafana_types module, which is not under src. The spec's endpoint table says
search parameters are built from the arguments and the query entry is
dropped when absent, so building the parameter dictionary from the
arguments (model_dump in the source) yields a query entry that is the
Python None when the argument is absent. -/
structure SearchDashboardsArguments where
  query : Option String
deriving DecidableEq

/-- Modelled from the spec: the parameter dictionary built from the search
arguments, with the query entry present and None-valued when the argument
is absent. -/
def SearchDashboardsArguments.model_dump (a : SearchDashboardsArguments) :
    Params :=
  [("query", match a.query with | some s => PVal.str s | none => PVal.null)]

/-- Embedding of GrafanaClient.search_dashboards (client.py lines 146 to
153): build params from the arguments, delete the query key when its value
is None (a missing key would raise KeyError), then GET /api/search. -/
def GrafanaClient.search_dashboards (a : SearchDashboardsArguments) :
    FacadeCall :=
  let params := a.model_dump
  match lookupP params "query" with
  | none => .keyError "query"
  | some v =>
    if v = PVal.null then .getReq "/api/search" (eraseP params "query")
    else .getReq "/api/search" params

/-- Python datetime as the facade observes it: its POSIX timestamp in
seconds (an exact rational, standing for the float the timestamp method
returns) and the string the isoformat method returns. -/
structure Datetime where
  timestamp : Rat
  isoformat : String
deriving DecidableEq

/-- Modelled from the spec: Selector lives in the grafana_types module,
which is not under src; the spec's data model calls it an opaque
label-matcher expression serialized verbatim into query parameters, so it
carries exactly its string form. -/
structure Selector where
  toStr : String
deriving DecidableEq

/-- Modelled from the spec: Query lives in the grafana_types module, which
is not under src; the spec's endpoint table says each per-datasource query
body is serialized using the query's wire aliasing rules, so a query
carries its serialized wire form opaquely. -/
structure Query where
  wire : String
deriving DecidableEq

/-- Modelled from the spec: query_list.dump_python with by_alias, the
serialization of an ordered list of queries, each under its own wire
aliasing rules, preserving order. -/
def query_list_dump_python (qs : List Query) : List String :=
  qs.map Query.wire

/-- Body POSTed to /api/ds/query by the unified query, with the fields the
source dictionary carries under the keys from, to and queries. -/
structure DsQueryBody where
  from_ : String
  to_ : String
  queries : List String
deriving DecidableEq

/-- Embedding of GrafanaClient.query (client.py lines 212 to 218): the path
and JSON body of the POST it issues; from and to are
str(math.floor(t.timestamp() * 1000)). -/
def GrafanaClient.query (f toT : Datetime) (queries : List Query) :
    String × DsQueryBody :=
  ("/api/ds/query",
    { from_ := toString (Rat.floor (f.timestamp * 1000))
    , to_ := toString (Rat.floor (toT.timestamp * 1000))
    , queries := query_list_dump_python queries })

/-- Embedding of GrafanaClient.list_prometheus_label_names (client.py lines
238 to 259): params built by inserting match[], start, end and limit in
this order, each only when the argument is not None, then one GET. -/
def GrafanaClient.list_prometheus_label_names (datasource_uid : String)
    (matchesA : Option (List Selector)) (start endT : Option Datetime)
    (limit : Option Int) : FacadeCall :=
  let params : Params := []
  let params := match matchesA with
    | some ms => params ++ [("match[]", PVal.strList (ms.map Selector.toStr))]
    | none => params
  let params := match start with
    | some d => params ++ [("start", PVal.str d.isoformat)]
    | none => params
  let params := match endT with
    | some d => params ++ [("end", PVal.str d.isoformat)]
    | none => params
  let params := match limit with
    | some n => params ++ [("limit", PVal.intVal n)]
    | none => params
  .getReq ("/api/datasources/proxy/uid/" ++ datasource_uid ++ "/api/v1/labels")
    params

/-- Embedding of GrafanaClient.list_prometheus_label_values (client.py
lines 261 to 283): same parameter building as label names, with the label
name interpolated into the path. -/
def GrafanaClient.list_prometheus_label_values (datasource_uid : String)
    (label_name : String) (matchesA : Option (List Selector))
    (start endT : Option Datetime) (limit : Option Int) : FacadeCall :=
  let params : Params := []
  let params := match matchesA with
    | some ms => params ++ [("match[]", PVal.strList (ms.map Selector.toStr))]
    | none => params
  let params := match start with
    | some d => params ++ [("start", PVal.str d.isoformat)]
    | none => params
  let params := match endT with
    | some d => params ++ [("end", PVal.str d.isoformat)]
    | none => params
  let params := match limit with
    | some n => params ++ [("limit", PVal.intVal n)]
    | none => params
  .getReq ("/api/datasources/proxy/uid/" ++ datasource_uid ++
      "/api/v1/label/" ++ label_name ++ "/values")
    params

/-- State the client module's top level manipulates: the grafana_settings
context variable's current value and the grafana_client context variable's
value, none before the module body runs. -/
structure ModuleContext where
  grafana_settings : GrafanaSettings
  grafana_client : Option GrafanaClient
deriving DecidableEq

/-- Embedding of the client module's top level (client.py lines 286 to
288): the grafana_client context variable is created and set, in the
importing context, to the client for_current_request builds from the
grafana_settings context variable. -/
def moduleLoad (c : ModuleContext) : ModuleContext :=
  let client := GrafanaClient.for_current_request c.grafana_settings
  { c with grafana_client := some client }

/-- Key of the association list respects filtering by a different key:
finding k2 is unaffected by removing all bindings of k when k2 differs
from k. -/
theorem find_fst_filter_ne {α : Type} (l : List (String × α)) (k k2 : String)
    (hne : k2 ≠ k) :
    List.find? (fun p => p.1 = k2) (l.filter (fun p => ¬ p.1 = k))
      = List.find? (fun p => p.1 = k2) l := by
  rw [List.find?_filter]
  have hpred : (fun (p : String × α) => decide ¬ p.1 = k && decide (p.1 = k2))
      = fun p => decide (p.1 = k2) := by
    funext p
    by_cases h2 : p.1 = k2
    · have hk : ¬ p.1 = k := by rw [h2]; exact hne
      simp [h2, hk, hne]
    · simp [h2]
  simp only [decide_eq_true_eq, Bool.decide_and]
  rw [hpred]

/-- Header assignment makes the assigned header observable. -/
theorem lookupH_setHeader_self (h : Headers) (k v : String) :
    lookupH (setHeader h k v) k = some v := by
  simp [lookupH, setHeader, List.find?_cons]

/-- Header assignment leaves every other header unchanged. -/
theorem lookupH_setHeader_ne (h : Headers) (k v k2 : String) (hne : k2 ≠ k) :
    lookupH (setHeader h k v) k2 = lookupH h k2 := by
  simp only [lookupH, setHeader]
  rw [List.find?_cons_of_neg, find_fst_filter_ne _ _ _ hne]
  simp only [decide_eq_true_eq]
  exact fun hh => hne hh.symm

/-- Credential selection precedence that from_settings actually implements,
written out by combination: an access token together with an identity token
wins first, even when a static api key is also configured; with no access
token at all, no credential strategy is constructed and the api key is
ignored; with an access token but no identity token, the api key decides:
Bearer when present, otherwise no strategy. -/
def selectedAuth (s : GrafanaSettings) : Option Auth :=
  match s.access_token, s.id_token with
  | some a, some i => some (.accessTokenOnBehalfOf a i)
  | none, _ => none
  | some _, none =>
    match s.api_key with
    | some k => some (.bearer k)
    | none => none

/-- C1 counterexample: with a static api key, an access token and an
identity token all present, from_settings selects the on-behalf-of variant,
not the ServiceAccountToken (Bearer) variant the claimed precedence puts
first. -/
theorem from_settings_api_key_not_first :
    (GrafanaClient.from_settings
        { url := "http://g", api_key := some "k",
          access_token := some "a", id_token := some "i" }).auth
      = some (Auth.accessTokenOnBehalfOf "a" "i") ∧
    (GrafanaClient.from_settings
        { url := "http://g", api_key := some "k",
          access_token := some "a", id_token := some "i" }).auth
      ≠ some (Auth.bearer "k") := by
  exact ⟨rfl, by decide⟩

/-- C1 (amended): credential selection is deterministic and, for every
combination of presence and absence of the three settings, follows the
precedence from_settings implements: both access token and identity token
present selects AccessTokenOnBehalfOf (even when an api key is configured);
no access token selects no strategy at all (the api key is ignored); an
access token without an identity token selects ServiceAccountToken (Bearer)
when the api key is present and no strategy otherwise. -/
theorem from_settings_selection (s : GrafanaSettings) :
    (GrafanaClient.from_settings s).auth = selectedAuth s := by
  rcases s with ⟨u, k, a, i⟩
  cases k <;> cases a <;> cases i <;> rfl

/-- C3: each credential strategy attaches exactly its documented header
set and nothing else: Bearer assigns only Authorization with value Bearer
token, AccessToken assigns only X-Access-Token, and the on-behalf-of
strategy assigns exactly X-Access-Token and X-Grafana-Id; every header
with a different name is left unchanged. -/
theorem auth_flow_headers_exact :
    (∀ (t : String) (h : Headers),
      lookupH (Auth.auth_flow (.bearer t) h) "Authorization"
          = some ("Bearer " ++ t) ∧
      ∀ k, k ≠ "Authorization" →
        lookupH (Auth.auth_flow (.bearer t) h) k = lookupH h k) ∧
    (∀ (t : String) (h : Headers),
      lookupH (Auth.auth_flow (.accessToken t) h) "X-Access-Token" = some t ∧
      ∀ k, k ≠ "X-Access-Token" →
        lookupH (Auth.auth_flow (.accessToken t) h) k = lookupH h k) ∧
    (∀ (a i : String) (h : Headers),
      lookupH (Auth.auth_flow (.accessTokenOnBehalfOf a i) h) "X-Access-Token"
          = some a ∧
      lookupH (Auth.auth_flow (.accessTokenOnBehalfOf a i) h) "X-Grafana-Id"
          = some i ∧
      ∀ k, k ≠ "X-Access-Token" → k ≠ "X-Grafana-Id" →
        lookupH (Auth.auth_flow (.accessTokenOnBehalfOf a i) h) k
          = lookupH h k) := by
  refine ⟨fun t h => ⟨?_, fun k hk => ?_⟩, fun t h => ⟨?_, fun k hk => ?_⟩,
    fun a i h => ⟨?_, ?_, fun k hk1 hk2 => ?_⟩⟩
  · exact lookupH_setHeader_self _ _ _
  · exact lookupH_setHeader_ne _ _ _ _ hk
  · exact lookupH_setHeader_self _ _ _
  · exact lookupH_setHeader_ne _ _ _ _ hk
  · show lookupH (setHeader (setHeader h "X-Access-Token" a) "X-Grafana-Id" i)
        "X-Access-Token" = some a
    rw [lookupH_setHeader_ne _ _ _ _ (by decide)]
    exact lookupH_setHeader_self _ _ _
  · exact lookupH_setHeader_self _ _ _
  · show lookupH (setHeader (setHeader h "X-Access-Token" a) "X-Grafana-Id" i)
        k = lookupH h k
    rw [lookupH_setHeader_ne _ _ _ _ hk2]
    exact lookupH_setHeader_ne _ _ _ _ hk1

/-- Witness for C3 at concrete inputs: a Bearer token on a request already
carrying an unrelated header, and the on-behalf-of identity header. -/
theorem auth_flow_headers_exact_witness :
    lookupH (Auth.auth_flow (.bearer "t1") [("Other", "o")]) "Authorization"
        = some ("Bearer " ++ "t1") ∧
    lookupH (Auth.auth_flow (.bearer "t1") [("Other", "o")]) "Other"
        = some "o" ∧
    lookupH (Auth.auth_flow (.accessTokenOnBehalfOf "a" "i") []) "X-Grafana-Id"
        = some "i" ∧
    lookupH (Auth.auth_flow (.accessTokenOnBehalfOf "a" "i") [("Other", "o")])
        "Other" = some "o" :=
  ⟨(auth_flow_headers_exact.1 "t1" [("Other", "o")]).1,
   (auth_flow_headers_exact.1 "t1" [("Other", "o")]).2 "Other" (by decide),
   (auth_flow_headers_exact.2.2 "a" "i" []).2.1,
   (auth_flow_headers_exact.2.2 "a" "i" [("Other", "o")]).2.2 "Other"
     (by decide) (by decide)⟩

/-- C4: for every upstream response, a non-2xx status makes the get and
post verbs fail with GrafanaError carrying the verbatim response body text,
and a 2xx status returns the raw body. -/
theorem get_post_upstream_error (c : GrafanaClient) (path : String)
    (params : Params) {J : Type} (json : J) (r : HttpResponse) :
    (r.is_success = false →
      GrafanaClient.get c path params r = Except.error r.body ∧
      GrafanaClient.post c path json r = Except.error r.body) ∧
    (r.is_success = true →
      GrafanaClient.get c path params r = Except.ok r.body ∧
      GrafanaClient.post c path json r = Except.ok r.body) := by
  constructor <;> intro hs <;>
    constructor <;> simp [GrafanaClient.get, GrafanaClient.post, hs]

/-- Witness for C4: a 404 response with the documented JSON body fails with
the error carrying exactly that text. -/
theorem get_post_upstream_error_witness :
    GrafanaClient.get (GrafanaClient.mk_client "http://g" none none none)
        "/api/search" [] ⟨404, "\x7b\"message\":\"not found\"\x7d"⟩
      = Except.error "\x7b\"message\":\"not found\"\x7d" :=
  ((get_post_upstream_error (GrafanaClient.mk_client "http://g" none none none)
      "/api/search" [] (0 : Nat)
      ⟨404, "\x7b\"message\":\"not found\"\x7d"⟩).1 (by decide)).1

/-- C5: searchDashboards issues a GET to /api/search; the query parameter
is absent from the outgoing request when the argument is absent, and the
request is still issued, and the parameter is included verbatim when the
argument is present. -/
theorem search_dashboards_query_param :
    GrafanaClient.search_dashboards ⟨none⟩
        = FacadeCall.getReq "/api/search" [] ∧
    (∀ s, GrafanaClient.search_dashboards ⟨some s⟩
        = FacadeCall.getReq "/api/search" [("query", PVal.str s)]) ∧
    lookupP [] "query" = none ∧
    (∀ s, lookupP [("query", PVal.str s)] "query" = some (PVal.str s)) := by
  refine ⟨rfl, fun s => rfl, rfl, fun s => rfl⟩

/-- C6: getDatasource with both uid and name omitted fails locally with the
ValueError (the InvalidArgument kind) and so issues no network call; with
the uid supplied it GETs the uid path, and with only the name supplied it
GETs the name path. -/
theorem get_datasource_local_validation :
    GrafanaClient.get_datasource none none
        = FacadeCall.invalidArgument "uid or name must be provided" ∧
    (∀ u, GrafanaClient.get_datasource (some u) none
        = FacadeCall.getReq ("/api/datasources/uid/" ++ u) []) ∧
    (∀ n, GrafanaClient.get_datasource none (some n)
        = FacadeCall.getReq ("/api/datasources/name/" ++ n) []) :=
  ⟨rfl, fun u => rfl, fun n => rfl⟩

/-- C9: with both uid and name supplied, getDatasource requests only the
uid path; the result coincides with the call where name was never given,
so the name argument is ignored entirely. -/
theorem get_datasource_uid_precedence (u n : String) :
    GrafanaClient.get_datasource (some u) (some n)
        = FacadeCall.getReq ("/api/datasources/uid/" ++ u) [] ∧
    GrafanaClient.get_datasource (some u) (some n)
        = GrafanaClient.get_datasource (some u) none :=
  ⟨rfl, rfl⟩

/-- C7: the unified query POSTs to /api/ds/query a body whose from and to
fields are the string form of the floor of the timestamp seconds times
1000 and whose queries field is the input list serialized in its original
order under each query's wire aliasing rules; at epoch seconds
1700000000.5 the encoding is the string 1700000000500. -/
theorem unified_query_encoding :
    (∀ (f toT : Datetime) (qs : List Query),
      GrafanaClient.query f toT qs
        = ("/api/ds/query",
            { from_ := toString (Rat.floor (f.timestamp * 1000))
            , to_ := toString (Rat.floor (toT.timestamp * 1000))
            , queries := qs.map Query.wire })) ∧
    (GrafanaClient.query ⟨1700000000.5, ""⟩ ⟨1700000000.5, ""⟩ []).2.from_
        = "1700000000500" := by
  constructor
  · intro f toT qs; rfl
  · show toString (Rat.floor ((1700000000.5 : Rat) * 1000)) = "1700000000500"
    have h : ((1700000000.5 : Rat) * 1000) = ((1700000000500 : Int) : Rat) := by
      norm_num
    have h2 : Rat.floor ((1700000000500 : Int) : Rat) = (1700000000500 : Int) := by
      rw [Rat.floor_def']
      norm_num
    rw [h, h2]
    decide

/-- C8: the two Prometheus label endpoints carry one repeated match[] entry
per Selector, each serialized verbatim, exactly when matches is provided;
start and end as their ISO-8601 strings exactly when provided; limit
exactly when provided; and the documented example with selectors up and
rate(foo[5m]) yields exactly those two entries. -/
theorem prometheus_label_query_params :
    (∀ (uid label : String) (ms : Option (List Selector))
        (st en : Option Datetime) (li : Option Int),
      ∃ ps,
        GrafanaClient.list_prometheus_label_values uid label ms st en li
          = FacadeCall.getReq
              ("/api/datasources/proxy/uid/" ++ uid ++ "/api/v1/label/"
                ++ label ++ "/values") ps ∧
        lookupP ps "match[]"
          = ms.map (fun l => PVal.strList (l.map Selector.toStr)) ∧
        lookupP ps "start" = st.map (fun d => PVal.str d.isoformat) ∧
        lookupP ps "end" = en.map (fun d => PVal.str d.isoformat) ∧
        lookupP ps "limit" = li.map (fun n => PVal.intVal n)) ∧
    (∀ (uid : String) (ms : Option (List Selector))
        (st en : Option Datetime) (li : Option Int),
      ∃ ps,
        GrafanaClient.list_prometheus_label_names uid ms st en li
          = FacadeCall.getReq
              ("/api/datasources/proxy/uid/" ++ uid ++ "/api/v1/labels") ps ∧
        lookupP ps "match[]"
          = ms.map (fun l => PVal.strList (l.map Selector.toStr)) ∧
        lookupP ps "start" = st.map (fun d => PVal.str d.isoformat) ∧
        lookupP ps "end" = en.map (fun d => PVal.str d.isoformat) ∧
        lookupP ps "limit" = li.map (fun n => PVal.intVal n)) ∧
    GrafanaClient.list_prometheus_label_values "ds1" "job"
        (some [⟨"up"⟩, ⟨"rate(foo[5m])"⟩]) none none none
      = FacadeCall.getReq
          "/api/datasources/proxy/uid/ds1/api/v1/label/job/values"
          [("match[]", PVal.strList ["up", "rate(foo[5m])"])] := by
  refine ⟨fun uid label ms st en li => ?_, fun uid ms st en li => ?_, rfl⟩
  · rcases ms with _ | ms <;> rcases st with _ | st <;> rcases en with _ | en <;>
      rcases li with _ | li <;> exact ⟨_, rfl, rfl, rfl, rfl, rfl⟩
  · rcases ms with _ | ms <;> rcases st with _ | st <;> rcases en with _ | en <;>
      rcases li with _ | li <;> exact ⟨_, rfl, rfl, rfl, rfl, rfl⟩

/-- C10: loading the client module installs into the grafana_client context
variable of the importing context exactly the client that
for_current_request builds from the grafana_settings context variable's
current value, which is from_settings of those settings; the binding
therefore exists before any inbound request is handled, and the settings
themselves are untouched. -/
theorem module_load_installs_client (c : ModuleContext) :
    (moduleLoad c).grafana_client
        = some (GrafanaClient.from_settings c.grafana_settings) ∧
    ((moduleLoad c).grafana_client).isSome = true ∧
    (∀ s, GrafanaClient.for_current_request s
        = GrafanaClient.from_settings s) ∧
    (moduleLoad c).grafana_settings = c.grafana_settings :=
  ⟨rfl, rfl, fun s => rfl, rfl⟩
